import Mathlib

/-!
Shallow embedding of the ProbabilityScorer logic of the weather dashboard
(`src/src/components/WeatherDashboard.tsx`).

JavaScript numbers are modelled as rationals (`ℚ`).  A measurement that is
`null`, `undefined` or `NaN` — all of which satisfy the guard
`value === null || isNaN(value)` on line 125 of the source — is modelled as
`none : Option ℚ`; a finite numeric reading `v` is `some v`.
`Math.round` rounds half away from zero toward positive infinity for the
values at stake, i.e. `Math.round(x) = ⌊x + 1/2⌋`.
-/

/-- JavaScript `Math.round`: round to nearest integer, half toward +∞. -/
def jsRound (q : ℚ) : ℤ := ⌊q + 1 / 2⌋

/-- The `thresholds` parameter `{ min: number; max: number }` of
`calculateProbability`. -/
structure Thresholds where
  min : ℚ
  max : ℚ
deriving DecidableEq

/-- Embedding of `calculateProbability` (WeatherDashboard.tsx lines 118–141).
The two boolean directions of the source `if/else` are matched on;
`none` models the `value === null || isNaN(value)` guard. -/
def calculateProbability (value : Option ℚ) (thresholds : Thresholds)
    (baseProb maxProb : ℚ) (higherValuesGiveHigherProb : Bool) : ℚ :=
  match value, higherValuesGiveHigherProb with
  | none, _ => baseProb
  | some v, true =>
      if v ≤ thresholds.min then baseProb
      else if v ≥ thresholds.max then maxProb
      else
        ((jsRound (baseProb +
          (v - thresholds.min) / (thresholds.max - thresholds.min) *
            (maxProb - baseProb)) : ℤ) : ℚ)
  | some v, false =>
      if v ≤ thresholds.min then maxProb
      else if v ≥ thresholds.max then baseProb
      else
        ((jsRound (maxProb -
          (v - thresholds.min) / (thresholds.max - thresholds.min) *
            (maxProb - baseProb)) : ℤ) : ℚ)

/-- The three severity bands of `getSeverity`. -/
inductive Severity
  | low
  | medium
  | high
deriving DecidableEq, Repr

/-- Numeric rank of a severity band, `low < medium < high`. -/
def Severity.rank : Severity → ℕ
  | .low => 0
  | .medium => 1
  | .high => 2

/-- Embedding of `getSeverity` (WeatherDashboard.tsx lines 143–147). -/
def getSeverity (probability : ℚ) : Severity :=
  if probability ≥ 70 then .high
  else if probability ≥ 40 then .medium
  else .low

/-- `hotProb` of `fetchWeather` (line 194). -/
def hotProb (maxTemp : Option ℚ) : ℚ :=
  calculateProbability maxTemp ⟨25, 40⟩ 10 95 true

/-- `coldProb` of `fetchWeather` (line 195). -/
def coldProb (minTemp : Option ℚ) : ℚ :=
  calculateProbability minTemp ⟨-5, 10⟩ 10 95 false

/-- `wetProb` of `fetchWeather` (line 196). -/
def wetProb (rain : Option ℚ) : ℚ :=
  calculateProbability rain ⟨1, 25⟩ 10 95 true

/-- `windyProb` of `fetchWeather` (line 197). -/
def windyProb (wind : Option ℚ) : ℚ :=
  calculateProbability wind ⟨20, 60⟩ 10 95 true

/-- `stormProb` of `fetchWeather` (line 198): the scorer applied to the
product of the precipitation and wind-speed readings. -/
def stormProb (rain wind : ℚ) : ℚ :=
  calculateProbability (some (rain * wind)) ⟨50, 500⟩ 5 80 true

/-- `uncomfortableProb` of `fetchWeather` (lines 199–202):
`Math.min(99, Math.round((hotProb + wetProb) * 0.6 + (windyProb > 70 ? 10 : 0)))`. -/
def uncomfortableProb (hot wet windy : ℚ) : ℤ :=
  min 99 (jsRound ((hot + wet) * (6 / 10) + if windy > 70 then 10 else 0))

/-- Spec-side formula for the storm risk, written from the spec's words:
"stormRisk = score(precipitation × windSpeed, {min:50,max:500}, base=5,
max=80, ascending=true)". -/
def stormRisk_spec (precipitation windSpeed : ℚ) : ℚ :=
  calculateProbability (some (precipitation * windSpeed)) ⟨50, 500⟩ 5 80 true

/-- Spec-side formula for the discomfort index, written from the spec's words:
"discomfortIndex = min(99, round((hotScore + wetScore) × 0.6 +
(windyScore > 70 ? 10 : 0)))". -/
def discomfortIndex_spec (hotScore wetScore windyScore : ℚ) : ℤ :=
  min 99 (jsRound ((hotScore + wetScore) * (6 / 10) +
    if windyScore > 70 then 10 else 0))

/-! ### Helper lemmas -/

theorem jsRound_mono {p q : ℚ} (h : p ≤ q) : jsRound p ≤ jsRound q :=
  Int.floor_le_floor (by linarith)

theorem jsRound_intCast (n : ℤ) : jsRound (n : ℚ) = n := by
  unfold jsRound
  rw [add_comm, Int.floor_add_int]
  norm_num

theorem int_le_jsRound {n : ℤ} {q : ℚ} (h : (n : ℚ) ≤ q) : n ≤ jsRound q := by
  calc n = jsRound (n : ℚ) := (jsRound_intCast n).symm
    _ ≤ jsRound q := jsRound_mono h

theorem jsRound_le_int {n : ℤ} {q : ℚ} (h : q ≤ (n : ℚ)) : jsRound q ≤ n := by
  calc jsRound q ≤ jsRound (n : ℚ) := jsRound_mono h
    _ = n := jsRound_intCast n

/-- The ascending interior interpolation stays in `[b, m]` when `b ≤ m`. -/
theorem interp_mem {t : Thresholds} {b m v : ℚ} (hbm : b ≤ m)
    (h1 : t.min < v) (h2 : v < t.max) :
    b ≤ b + (v - t.min) / (t.max - t.min) * (m - b) ∧
      b + (v - t.min) / (t.max - t.min) * (m - b) ≤ m := by
  have hd : (0 : ℚ) < t.max - t.min := by linarith
  have hs0 : (0 : ℚ) < (v - t.min) / (t.max - t.min) :=
    div_pos (by linarith) hd
  have hs1 : (v - t.min) / (t.max - t.min) < 1 :=
    (div_lt_one hd).mpr (by linarith)
  constructor <;> nlinarith

/-- The descending interior interpolation stays in `[b, m]` when `b ≤ m`. -/
theorem interp_desc_mem {t : Thresholds} {b m v : ℚ} (hbm : b ≤ m)
    (h1 : t.min < v) (h2 : v < t.max) :
    b ≤ m - (v - t.min) / (t.max - t.min) * (m - b) ∧
      m - (v - t.min) / (t.max - t.min) * (m - b) ≤ m := by
  have hd : (0 : ℚ) < t.max - t.min := by linarith
  have hs0 : (0 : ℚ) < (v - t.min) / (t.max - t.min) :=
    div_pos (by linarith) hd
  have hs1 : (v - t.min) / (t.max - t.min) < 1 :=
    (div_lt_one hd).mpr (by linarith)
  constructor <;> nlinarith

/-- The rounded ascending interior value lies in `[b, m]` for integer `b ≤ m`. -/
theorem jsRound_interp_lb {t : Thresholds} {b m : ℤ} {v : ℚ} (hbm : b ≤ m)
    (h1 : t.min < v) (h2 : v < t.max) :
    (b : ℚ) ≤
      ((jsRound ((b : ℚ) + (v - t.min) / (t.max - t.min) * ((m : ℚ) - (b : ℚ))) : ℤ) : ℚ) := by
  have hbmq : (b : ℚ) ≤ (m : ℚ) := by exact_mod_cast hbm
  exact_mod_cast int_le_jsRound (interp_mem hbmq h1 h2).1

/-- Upper half of the previous bound. -/
theorem jsRound_interp_ub {t : Thresholds} {b m : ℤ} {v : ℚ} (hbm : b ≤ m)
    (h1 : t.min < v) (h2 : v < t.max) :
    ((jsRound ((b : ℚ) + (v - t.min) / (t.max - t.min) * ((m : ℚ) - (b : ℚ))) : ℤ) : ℚ)
      ≤ (m : ℚ) := by
  have hbmq : (b : ℚ) ≤ (m : ℚ) := by exact_mod_cast hbm
  exact_mod_cast jsRound_le_int (interp_mem hbmq h1 h2).2

/-- The rounded descending interior value lies in `[b, m]` for integer `b ≤ m`. -/
theorem jsRound_interp_desc_lb {t : Thresholds} {b m : ℤ} {v : ℚ} (hbm : b ≤ m)
    (h1 : t.min < v) (h2 : v < t.max) :
    (b : ℚ) ≤
      ((jsRound ((m : ℚ) - (v - t.min) / (t.max - t.min) * ((m : ℚ) - (b : ℚ))) : ℤ) : ℚ) := by
  have hbmq : (b : ℚ) ≤ (m : ℚ) := by exact_mod_cast hbm
  exact_mod_cast int_le_jsRound (interp_desc_mem hbmq h1 h2).1

/-- Upper half of the previous bound. -/
theorem jsRound_interp_desc_ub {t : Thresholds} {b m : ℤ} {v : ℚ} (hbm : b ≤ m)
    (h1 : t.min < v) (h2 : v < t.max) :
    ((jsRound ((m : ℚ) - (v - t.min) / (t.max - t.min) * ((m : ℚ) - (b : ℚ))) : ℤ) : ℚ)
      ≤ (m : ℚ) := by
  have hbmq : (b : ℚ) ≤ (m : ℚ) := by exact_mod_cast hbm
  exact_mod_cast jsRound_le_int (interp_desc_mem hbmq h1 h2).2

/-- With integer score bounds `b ≤ m`, every output of the scorer lies in
`[b, m]`, for both directions and also for missing input. -/
theorem calcProb_bounds (t : Thresholds) (b m : ℤ) (v : Option ℚ) (asc : Bool)
    (hbm : b ≤ m) :
    (b : ℚ) ≤ calculateProbability v t b m asc ∧
      calculateProbability v t b m asc ≤ m := by
  have hbmq : (b : ℚ) ≤ (m : ℚ) := by exact_mod_cast hbm
  match v, asc with
  | none, asc =>
      exact ⟨le_refl _, hbmq⟩
  | some v, true =>
      simp only [calculateProbability]
      split_ifs with h1 h2
      · exact ⟨le_refl _, hbmq⟩
      · exact ⟨hbmq, le_refl _⟩
      · push_neg at h1 h2
        exact ⟨jsRound_interp_lb hbm h1 h2, jsRound_interp_ub hbm h1 h2⟩
  | some v, false =>
      simp only [calculateProbability]
      split_ifs with h1 h2
      · exact ⟨hbmq, le_refl _⟩
      · exact ⟨le_refl _, hbmq⟩
      · push_neg at h1 h2
        exact ⟨jsRound_interp_desc_lb hbm h1 h2, jsRound_interp_desc_ub hbm h1 h2⟩

/-- The ascending interior interpolation is monotone in the measurement. -/
theorem interp_mono {t : Thresholds} {b m v1 v2 : ℚ} (hbm : b ≤ m)
    (hd : t.min < t.max) (h : v1 ≤ v2) :
    b + (v1 - t.min) / (t.max - t.min) * (m - b) ≤
      b + (v2 - t.min) / (t.max - t.min) * (m - b) := by
  have hd0 : (0 : ℚ) < t.max - t.min := by linarith
  have hs : (v1 - t.min) / (t.max - t.min) ≤ (v2 - t.min) / (t.max - t.min) :=
    (div_le_div_iff_of_pos_right hd0).mpr (by linarith)
  nlinarith

/-- The descending interior interpolation is antitone in the measurement. -/
theorem interp_desc_anti {t : Thresholds} {b m v1 v2 : ℚ} (hbm : b ≤ m)
    (hd : t.min < t.max) (h : v1 ≤ v2) :
    m - (v2 - t.min) / (t.max - t.min) * (m - b) ≤
      m - (v1 - t.min) / (t.max - t.min) * (m - b) := by
  have hd0 : (0 : ℚ) < t.max - t.min := by linarith
  have hs : (v1 - t.min) / (t.max - t.min) ≤ (v2 - t.min) / (t.max - t.min) :=
    (div_le_div_iff_of_pos_right hd0).mpr (by linarith)
  nlinarith

/-- Ascending direction of the scorer is monotone for integer `b ≤ m`. -/
theorem calcProb_mono_asc {t : Thresholds} {b m : ℤ} {v1 v2 : ℚ}
    (hbm : b ≤ m) (h : v1 ≤ v2) :
    calculateProbability (some v1) t b m true ≤
      calculateProbability (some v2) t b m true := by
  have hbmq : (b : ℚ) ≤ (m : ℚ) := by exact_mod_cast hbm
  simp only [calculateProbability]
  split_ifs with h1 h2 h3 h4 h5 h6 h7 h8
  · exact le_refl _
  · exact hbmq
  · exact jsRound_interp_lb hbm (not_le.mp h2) (not_le.mp h3)
  · exact absurd (h.trans h5) h1
  · exact le_refl _
  · exact absurd (le_trans h4 h) h6
  · exact absurd (h.trans h7) h1
  · exact jsRound_interp_ub hbm (not_le.mp h1) (not_le.mp h4)
  · exact Int.cast_le.mpr (jsRound_mono (interp_mono hbmq
      (lt_trans (not_le.mp h1) (not_le.mp h4)) h))

/-- Descending direction of the scorer is antitone for integer `b ≤ m`. -/
theorem calcProb_anti_desc {t : Thresholds} {b m : ℤ} {v1 v2 : ℚ}
    (hbm : b ≤ m) (h : v1 ≤ v2) :
    calculateProbability (some v2) t b m false ≤
      calculateProbability (some v1) t b m false := by
  have hbmq : (b : ℚ) ≤ (m : ℚ) := by exact_mod_cast hbm
  simp only [calculateProbability]
  split_ifs with h1 h2 h3 h4 h5 h6 h7 h8
  · exact le_refl _
  · exact absurd (h.trans h1) h2
  · exact absurd (h.trans h1) h2
  · exact hbmq
  · exact le_refl _
  · exact jsRound_interp_desc_lb hbm (not_le.mp h5) (not_le.mp h6)
  · exact jsRound_interp_desc_ub hbm (not_le.mp h1) (not_le.mp h4)
  · exact absurd (le_trans h8 h) h4
  · exact Int.cast_le.mpr (jsRound_mono (interp_desc_anti hbmq
      (lt_trans (not_le.mp h1) (not_le.mp h4)) h))

/-! ### Claims -/

/-- C1: for every range with `min < max`, the ascending scorer returns
`baseProb` for `value ≤ min`, `maxProb` for `value ≥ max`, the rounded
linear interpolation in between, hits `baseProb`/`maxProb` exactly at the
endpoints, and `score(40, {25,40}, 10, 95, true) = 95`. -/
theorem calcProb_ascending_spec (t : Thresholds) (v b m : ℚ)
    (hr : t.min < t.max) :
    (v ≤ t.min → calculateProbability (some v) t b m true = b) ∧
    (t.max ≤ v → calculateProbability (some v) t b m true = m) ∧
    (t.min < v → v < t.max →
      calculateProbability (some v) t b m true =
        ((jsRound (b + (v - t.min) / (t.max - t.min) * (m - b)) : ℤ) : ℚ)) ∧
    calculateProbability (some t.min) t b m true = b ∧
    calculateProbability (some t.max) t b m true = m ∧
    calculateProbability (some 40) ⟨25, 40⟩ 10 95 true = 95 := by
  refine ⟨?_, ?_, ?_, ?_, ?_, by norm_num [calculateProbability]⟩
  · intro hv
    simp only [calculateProbability, if_pos hv]
  · intro hv
    simp only [calculateProbability]
    rw [if_neg (not_le.mpr (lt_of_lt_of_le hr hv)), if_pos hv]
  · intro h1 h2
    simp only [calculateProbability]
    rw [if_neg (not_le.mpr h1), if_neg (not_le.mpr h2)]
  · simp only [calculateProbability, if_pos (le_refl t.min)]
  · simp only [calculateProbability]
    rw [if_neg (not_le.mpr hr), if_pos (le_refl t.max)]

/-- Witness for C1 at the concrete lower endpoint of the hot-temperature
range. -/
theorem calcProb_ascending_spec_witness :
    calculateProbability (some (25 : ℚ)) ⟨25, 40⟩ 10 95 true = 10 :=
  (calcProb_ascending_spec ⟨25, 40⟩ 25 10 95 (by norm_num)).1 (le_refl _)

/-- C2: for every range with `min < max`, the descending scorer returns
`maxProb` for `value ≤ min`, `baseProb` for `value ≥ max`, the swapped
rounded interpolation in between, hits `maxProb`/`baseProb` exactly at the
endpoints, and `score(10, {-5,10}, 10, 95, false) = 10`. -/
theorem calcProb_descending_spec (t : Thresholds) (v b m : ℚ)
    (hr : t.min < t.max) :
    (v ≤ t.min → calculateProbability (some v) t b m false = m) ∧
    (t.max ≤ v → calculateProbability (some v) t b m false = b) ∧
    (t.min < v → v < t.max →
      calculateProbability (some v) t b m false =
        ((jsRound (m - (v - t.min) / (t.max - t.min) * (m - b)) : ℤ) : ℚ)) ∧
    calculateProbability (some t.min) t b m false = m ∧
    calculateProbability (some t.max) t b m false = b ∧
    calculateProbability (some 10) ⟨-5, 10⟩ 10 95 false = 10 := by
  refine ⟨?_, ?_, ?_, ?_, ?_, by norm_num [calculateProbability]⟩
  · intro hv
    simp only [calculateProbability, if_pos hv]
  · intro hv
    simp only [calculateProbability]
    rw [if_neg (not_le.mpr (lt_of_lt_of_le hr hv)), if_pos hv]
  · intro h1 h2
    simp only [calculateProbability]
    rw [if_neg (not_le.mpr h1), if_neg (not_le.mpr h2)]
  · simp only [calculateProbability, if_pos (le_refl t.min)]
  · simp only [calculateProbability]
    rw [if_neg (not_le.mpr hr), if_pos (le_refl t.max)]

/-- Witness for C2 at the concrete lower endpoint of the cold-temperature
range. -/
theorem calcProb_descending_spec_witness :
    calculateProbability (some (-5 : ℚ)) ⟨-5, 10⟩ 10 95 false = 95 :=
  (calcProb_descending_spec ⟨-5, 10⟩ (-5) 10 95 (by norm_num)).1 (le_refl _)

/-- C3: a `null`/`undefined`/`NaN` measurement (modelled as `none`) makes
the scorer return `baseProb`, for every range, bounds and direction,
without any failure. -/
theorem calcProb_missing_default (t : Thresholds) (b m : ℚ) (asc : Bool) :
    calculateProbability none t b m asc = b := by
  cases asc <;> rfl

/-- C4 counterexample: the claim asserts (quoting the spec sentence)
`severityOf(69) = low`, but `getSeverity 69 = medium`. -/
theorem getSeverity_claim_counterexample : getSeverity 69 ≠ Severity.low := by
  have h : getSeverity 69 = Severity.medium := by norm_num [getSeverity]
  rw [h]
  decide

/-- C4 (amended): `getSeverity` returns `high` iff the score is ≥ 70,
`medium` iff it is in `[40, 70)`, `low` iff it is < 40, with the concrete
values `39 → low`, `40 → medium`, `69 → medium`, `70 → high`. -/
theorem getSeverity_band_spec (p : ℚ) :
    (getSeverity p = Severity.high ↔ 70 ≤ p) ∧
    (getSeverity p = Severity.medium ↔ 40 ≤ p ∧ p < 70) ∧
    (getSeverity p = Severity.low ↔ p < 40) ∧
    getSeverity 39 = Severity.low ∧ getSeverity 40 = Severity.medium ∧
    getSeverity 69 = Severity.medium ∧ getSeverity 70 = Severity.high := by
  unfold getSeverity
  refine ⟨?_, ?_, ?_, by norm_num, by norm_num, by norm_num, by norm_num⟩
  · split_ifs with h1 h2
    · exact iff_of_true rfl h1
    · exact iff_of_false (by decide) h1
    · exact iff_of_false (by decide) h1
  · split_ifs with h1 h2
    · refine iff_of_false (by decide) ?_
      rintro ⟨_, h70⟩
      exact absurd h1 (not_le.mpr h70)
    · exact iff_of_true rfl ⟨h2, not_le.mp h1⟩
    · refine iff_of_false (by decide) ?_
      rintro ⟨h40, _⟩
      exact absurd h40 h2
  · split_ifs with h1 h2
    · exact iff_of_false (by decide)
        (not_lt.mpr (le_trans (by norm_num) h1))
    · exact iff_of_false (by decide) (not_lt.mpr h2)
    · exact iff_of_true rfl (not_le.mp h2)

/-- C5 counterexample: with the non-integer `baseProb = 2/5 ≤ maxProb = 10`
and range `{0, 1}`, rounding pushes an interior value below `baseProb`, so
`value 0 < value 1/192` yet the ascending score decreases (`2/5 > 0`). -/
theorem calcProb_mono_counterexample :
    (Thresholds.mk 0 1).min < (Thresholds.mk 0 1).max ∧ (0 : ℚ) < 1 / 192 ∧
    ¬ (calculateProbability (some 0) ⟨0, 1⟩ (2 / 5) 10 true ≤
        calculateProbability (some (1 / 192)) ⟨0, 1⟩ (2 / 5) 10 true) := by
  refine ⟨by norm_num, by norm_num, ?_⟩
  have h0 : calculateProbability (some 0) ⟨0, 1⟩ (2 / 5) 10 true = 2 / 5 := by
    norm_num [calculateProbability]
  have h1 : calculateProbability (some (1 / 192)) ⟨0, 1⟩ (2 / 5) 10 true = 0 := by
    norm_num [calculateProbability, jsRound]
  rw [h0, h1]
  norm_num

/-- C5 (amended): for every range with `min < max` and INTEGER score bounds
`baseProb ≤ maxProb`, the scorer is monotone in the measurement when
ascending and antitone when descending. -/
theorem calcProb_monotone (t : Thresholds) (b m : ℤ) (v1 v2 : ℚ)
    (_hr : t.min < t.max) (hbm : b ≤ m) (h : v1 < v2) :
    calculateProbability (some v1) t b m true ≤
      calculateProbability (some v2) t b m true ∧
    calculateProbability (some v2) t b m false ≤
      calculateProbability (some v1) t b m false :=
  ⟨calcProb_mono_asc hbm h.le, calcProb_anti_desc hbm h.le⟩

/-- Witness for C5 (amended) on the range `{0, 1}` with bounds `0 ≤ 10`. -/
theorem calcProb_monotone_witness :
    (Thresholds.mk 0 1).min < (Thresholds.mk 0 1).max ∧ (0 : ℤ) ≤ 10 ∧
    (0 : ℚ) < 1 ∧
    (calculateProbability (some 0) ⟨0, 1⟩ ((0 : ℤ) : ℚ) ((10 : ℤ) : ℚ) true ≤
        calculateProbability (some 1) ⟨0, 1⟩ ((0 : ℤ) : ℚ) ((10 : ℤ) : ℚ) true ∧
      calculateProbability (some 1) ⟨0, 1⟩ ((0 : ℤ) : ℚ) ((10 : ℤ) : ℚ) false ≤
        calculateProbability (some 0) ⟨0, 1⟩ ((0 : ℤ) : ℚ) ((10 : ℤ) : ℚ) false) :=
  ⟨by norm_num, by norm_num, by norm_num,
    calcProb_monotone ⟨0, 1⟩ 0 10 0 1 (by norm_num) (by norm_num) (by norm_num)⟩

/-- C6 counterexample: with the non-integer `baseProb = 2/5 ≤ maxProb = 10`
the rounded interior output `0` escapes the claimed closed interval
`[baseProb, maxProb]`. -/
theorem calcProb_range_counterexample :
    (Thresholds.mk 0 1).min < (Thresholds.mk 0 1).max ∧
    ¬ ((2 / 5 : ℚ) ≤ calculateProbability (some (1 / 192)) ⟨0, 1⟩ (2 / 5) 10 true) := by
  refine ⟨by norm_num, ?_⟩
  have h1 : calculateProbability (some (1 / 192)) ⟨0, 1⟩ (2 / 5) 10 true = 0 := by
    norm_num [calculateProbability, jsRound]
  rw [h1]
  norm_num

/-- C6 (amended): for every range with `min < max` and INTEGER score bounds
`baseProb ≤ maxProb`, every output of the scorer — for any measurement,
missing input included, and either direction — lies in `[baseProb, maxProb]`. -/
theorem calcProb_output_range (t : Thresholds) (b m : ℤ) (v : Option ℚ)
    (asc : Bool) (_hr : t.min < t.max) (hbm : b ≤ m) :
    (b : ℚ) ≤ calculateProbability v t b m asc ∧
      calculateProbability v t b m asc ≤ (m : ℚ) :=
  calcProb_bounds t b m v asc hbm

/-- Witness for C6 (amended) at an interior measurement of `{0, 1}`. -/
theorem calcProb_output_range_witness :
    (Thresholds.mk 0 1).min < (Thresholds.mk 0 1).max ∧ (0 : ℤ) ≤ 10 ∧
    (((0 : ℤ) : ℚ) ≤ calculateProbability (some (1 / 2)) ⟨0, 1⟩ ((0 : ℤ) : ℚ) ((10 : ℤ) : ℚ) true ∧
      calculateProbability (some (1 / 2)) ⟨0, 1⟩ ((0 : ℤ) : ℚ) ((10 : ℤ) : ℚ) true ≤ ((10 : ℤ) : ℚ)) :=
  ⟨by norm_num, by norm_num,
    calcProb_output_range ⟨0, 1⟩ 0 10 (some (1 / 2)) true (by norm_num) (by norm_num)⟩

/-- C7: the dashboard's storm risk and discomfort index are exactly the
compositions stated by the spec, and `rain = 25`, `wind = 60` give storm
risk `80` with severity `high`. -/
theorem composite_scores_spec :
    (∀ precipitation windSpeed : ℚ,
      stormProb precipitation windSpeed = stormRisk_spec precipitation windSpeed) ∧
    (∀ hotScore wetScore windyScore : ℚ,
      uncomfortableProb hotScore wetScore windyScore =
        discomfortIndex_spec hotScore wetScore windyScore) ∧
    stormProb 25 60 = 80 ∧ getSeverity (stormProb 25 60) = Severity.high := by
  refine ⟨fun _ _ => rfl, fun _ _ _ => rfl, ?_, ?_⟩
  · norm_num [stormProb, calculateProbability]
  · norm_num [stormProb, calculateProbability, getSeverity]

/-- C8: the scorer and the severity bucketing are total and deterministic —
every input in the declared domain (missing measurements included) yields a
result, and equal inputs yield equal outputs. -/
theorem scorer_total_deterministic :
    (∀ (v : Option ℚ) (t : Thresholds) (b m : ℚ) (asc : Bool),
      ∃ r : ℚ, calculateProbability v t b m asc = r) ∧
    (∀ p : ℚ, ∃ s : Severity, getSeverity p = s) ∧
    (∀ (v v' : Option ℚ) (t t' : Thresholds) (b b' m m' : ℚ) (asc asc' : Bool),
      v = v' → t = t' → b = b' → m = m' → asc = asc' →
        calculateProbability v t b m asc = calculateProbability v' t' b' m' asc') ∧
    (∀ p p' : ℚ, p = p' → getSeverity p = getSeverity p') := by
  refine ⟨fun v t b m asc => ⟨_, rfl⟩, fun p => ⟨_, rfl⟩, ?_, ?_⟩
  · rintro v v' t t' b b' m m' asc asc' rfl rfl rfl rfl rfl
    rfl
  · rintro p p' rfl
    rfl

/-- Witness for C8 at the concrete hot-temperature call. -/
theorem scorer_total_deterministic_witness :
    calculateProbability (some 40) ⟨25, 40⟩ 10 95 true =
      calculateProbability (some 40) ⟨25, 40⟩ 10 95 true :=
  scorer_total_deterministic.2.2.1 (some 40) (some 40) ⟨25, 40⟩ ⟨25, 40⟩
    10 10 95 95 true true rfl rfl rfl rfl rfl

/-- C9: the severity band is monotone in the score with respect to the
order `low < medium < high`. -/
theorem getSeverity_monotone (p1 p2 : ℚ) (h : p1 ≤ p2) :
    (getSeverity p1).rank ≤ (getSeverity p2).rank := by
  unfold getSeverity
  split_ifs with h1 h2 h3 h4 h5 h6 h7 h8
  · exact le_refl _
  · exact absurd (le_trans h1 h) h2
  · exact absurd (le_trans h1 h) h2
  · decide
  · exact le_refl _
  · exact absurd (le_trans h4 h) h6
  · exact Nat.zero_le _
  · exact Nat.zero_le _
  · exact Nat.zero_le _

/-- Witness for C9 across the low / high bands. -/
theorem getSeverity_monotone_witness :
    (getSeverity 30).rank ≤ (getSeverity 80).rank :=
  getSeverity_monotone 30 80 (by norm_num)

/-- C10: with the dashboard's default parameters, the uncomfortable score
is an integer (the embedding's return type is `ℤ`) between 12 and 99, for
all measurements, missing ones included. -/
theorem uncomfortableProb_range (maxTemp rain wind : Option ℚ) :
    12 ≤ uncomfortableProb (hotProb maxTemp) (wetProb rain) (windyProb wind) ∧
      uncomfortableProb (hotProb maxTemp) (wetProb rain) (windyProb wind) ≤ 99 := by
  have hhot : (10 : ℚ) ≤ hotProb maxTemp := by
    have := (calcProb_bounds ⟨25, 40⟩ 10 95 maxTemp true (by norm_num)).1
    unfold hotProb
    exact_mod_cast this
  have hwet : (10 : ℚ) ≤ wetProb rain := by
    have := (calcProb_bounds ⟨1, 25⟩ 10 95 rain true (by norm_num)).1
    unfold wetProb
    exact_mod_cast this
  constructor
  · unfold uncomfortableProb
    refine le_min (by norm_num) (int_le_jsRound ?_)
    have hb : (0 : ℚ) ≤ (if windyProb wind > 70 then (10 : ℚ) else 0) := by
      split_ifs <;> norm_num
    push_cast
    linarith
  · exact min_le_left _ _
